import Mathlib

/-!
Shallow embedding of `raiden_mps/contract_proxy.py`: the `ContractProxy`
and `ChannelContractProxy` classes.  External collaborators (the web3
transport, the ABI encoder/decoder `get_event_data`,
`construct_event_filter_params`, signing, RLP encoding) are passed in as
function parameters; the proxy's own logic is translated faithfully.
Effects that the spec talks about (network requests issued by
`eth_getLogs`, `gevent.sleep` calls) are made observable as a trace of
`ProxyAction`s returned alongside each result.
-/

/-- One entry of a contract ABI, as far as `contract_proxy.py` inspects it:
its `type` and `name` fields. -/
structure AbiEntry where
  type : String
  name : String
deriving DecidableEq, Repr

/-- A block bound: either a literal block number or one of the symbolic
markers `latest` / `pending` accepted by web3. -/
inductive BlockSpec where
  | number (n : Nat)
  | latest
  | pending
deriving DecidableEq, Repr

/-- A raw log entry as returned by the transport (`eth_getLogs` response
after `log_array_formatter`). -/
structure RawLog where
  blockNumber : Nat
  data : List Int
deriving DecidableEq, Repr

/-- A decoded log entry: the raw fields plus the decoded `args` mapping
attached by `get_logs` (line 53 of the source). -/
structure LogEntry where
  log : RawLog
  args : List (String × Int)
deriving DecidableEq, Repr

/-- The filter request built by `construct_event_filter_params` /
`input_filter_params_formatter` and sent to the transport. -/
structure FilterParams where
  fromBlock : BlockSpec
  toBlock : BlockSpec
  address : Int
  eventName : String
  argumentFilters : List (String × Int)
deriving DecidableEq, Repr

/-- Python exceptions that the proxy's own code can raise:
`[...][0]` on an empty list raises `IndexError`. -/
inductive PyError where
  | indexError
deriving DecidableEq, Repr

/-- Exceptions surfaced by the external contract-call collaborator used by
`get_settle_timeout`: `BadFunctionCallOutput` or any other error. -/
inductive CallError where
  | badFunctionCallOutput
  | other (msg : String)
deriving DecidableEq, Repr

/-- Observable side effects of the proxy: a network request issued by
`get_logs` (`request_blocking('eth_getLogs', ...)`) or a `gevent.sleep`. -/
inductive ProxyAction where
  | request (fp : FilterParams)
  | sleep (duration : Nat)
deriving DecidableEq, Repr

def ProxyAction.isRequest : ProxyAction → Bool
  | ProxyAction.request _ => true
  | ProxyAction.sleep _ => false

/-- Number of `eth_getLogs` network requests in a trace. -/
def requestCount (trace : List ProxyAction) : Nat :=
  trace.countP ProxyAction.isRequest

/-- Number of `gevent.sleep` calls in a trace. -/
def sleepCount (trace : List ProxyAction) : Nat :=
  trace.countP (fun a => ! ProxyAction.isRequest a)

/-- Module-level constant `DEFAULT_TIMEOUT = 20`. -/
def DEFAULT_TIMEOUT : Nat := 20

/-- Module-level constant `DEFAULT_RETRY_INTERVAL = 3`. -/
def DEFAULT_RETRY_INTERVAL : Nat := 3

/-- The immutable per-instance state set up by `ContractProxy.__init__`.
`caller_address` is derived from `privkey` at construction time (see
`ContractProxy.init`). -/
structure ContractProxy where
  privkey : Nat
  caller_address : Int
  address : Int
  abi : List AbiEntry
  gas_price : Nat
  gas_limit : Nat
deriving Repr

/-- `ContractProxy.__init__`: the caller address is derived from the
private key via the external `privtoaddr` collaborator and cached. -/
def ContractProxy.init (privtoaddr : Nat → Int) (privkey : Nat)
    (contract_address : Int) (abi : List AbiEntry)
    (gas_price gas_limit : Nat) : ContractProxy :=
  ContractProxy.mk privkey (privtoaddr privkey) contract_address abi gas_price gas_limit

/-- The transaction record assembled at line 34 of the source:
`Transaction(nonce, self.gas_price, self.gas_limit, self.address, 0, data)`. -/
structure Transaction where
  nonce : Nat
  gasprice : Nat
  startgas : Nat
  recipient : Int
  value : Nat
  data : List Int
deriving DecidableEq, Repr

/-- The transaction record built by `ContractProxy.create_transaction`
before signing.  `getTransactionCount` is the external
`web3.eth.getTransactionCount` and `prepare_transaction_data` is the
external `contract._prepare_transaction(...)['data']` encoder (after
`decode_hex`). -/
def create_transaction_tx (p : ContractProxy) (getTransactionCount : Int → Nat)
    (prepare_transaction_data : String → List Int → List Int)
    (func_name : String) (args : List Int) (nonce_offset : Nat) : Transaction :=
  Transaction.mk (getTransactionCount p.caller_address + nonce_offset)
    p.gas_price p.gas_limit p.address 0
    (prepare_transaction_data func_name args)

/-- `ContractProxy.create_transaction`: sign the assembled transaction with
the held private key, RLP-encode it and hex-encode the result
(`web3.toHex(rlp.encode(tx.sign(self.privkey)))`); signing, RLP and hex
are external collaborators. -/
def create_transaction (p : ContractProxy) (getTransactionCount : Int → Nat)
    (prepare_transaction_data : String → List Int → List Int)
    (sign : Transaction → Nat → List Int) (rlp_encode : List Int → List Int)
    (toHex : List Int → String)
    (func_name : String) (args : List Int) (nonce_offset : Nat) : String :=
  toHex (rlp_encode (sign
    (create_transaction_tx p getTransactionCount prepare_transaction_data func_name args nonce_offset)
    p.privkey))

/-- The list comprehension condition at line 43 of the source:
`i['type'] == 'event' and i['name'] == event_name`. -/
def isMatchingEventAbi (event_name : String) (i : AbiEntry) : Bool :=
  i.type == "event" && i.name == event_name

/-- `[i for i in self.abi if i['type'] == 'event' and i['name'] == event_name][0]`:
`some` of the first matching entry, or `none` for the `IndexError` on an
empty comprehension result. -/
def resolveEventAbi (abi : List AbiEntry) (event_name : String) : Option AbiEntry :=
  (abi.filter (isMatchingEventAbi event_name)).head?

/-- The external `construct_event_filter_params` /
`input_filter_params_formatter` pipeline, modelled as packing its inputs
into the filter request sent to the transport. -/
def construct_event_filter_params (event_abi : AbiEntry) (filters : List (String × Int))
    (from_block to_block : BlockSpec) (address : Int) : FilterParams :=
  FilterParams.mk from_block to_block address event_abi.name filters

/-- Attaching the decoded `args` to a raw log (lines 51-53 of the source);
`get_event_data` is the external web3 event decoder. -/
def decodeLog (get_event_data : AbiEntry → RawLog → List (String × Int))
    (event_abi : AbiEntry) (l : RawLog) : LogEntry :=
  LogEntry.mk l (get_event_data event_abi l)

/-- `ContractProxy.get_logs`.  `transport` is the external
`web3._requestManager.request_blocking('eth_getLogs', ...)` collaborator.
Returns the result (or the `IndexError` raised when no ABI entry matches
the event name) together with the trace of network requests issued. -/
def get_logs (p : ContractProxy) (transport : FilterParams → List RawLog)
    (get_event_data : AbiEntry → RawLog → List (String × Int))
    (event_name : String) (from_block to_block : BlockSpec)
    (filters : List (String × Int)) :
    Except PyError (List LogEntry) × List ProxyAction :=
  match resolveEventAbi p.abi event_name with
  | Option.none => (Except.error PyError.indexError, [])
  | Option.some event_abi =>
      (Except.ok ((transport (construct_event_filter_params event_abi filters from_block to_block p.address)).map
          (decodeLog get_event_data event_abi)),
       [ProxyAction.request (construct_event_filter_params event_abi filters from_block to_block p.address)])

/-- Default `from_block=0` of `get_logs`. -/
def get_logs_default_from_block : BlockSpec := BlockSpec.number 0

/-- Default `to_block='latest'` of `get_logs`. -/
def get_logs_default_to_block : BlockSpec := BlockSpec.latest

/-- `not condition or condition(event)` at line 62 of the source: an absent
condition accepts every entry. -/
def condMatch (condition : Option (LogEntry → Bool)) (event : LogEntry) : Bool :=
  match condition with
  | Option.none => true
  | Option.some c => c event

/-- Number of iterations of `for i in range(0, timeout + wait, wait)`:
the number of multiples of `wait` below `timeout + wait` (for `wait > 0`). -/
def numIterations (timeout wait : Nat) : Nat :=
  (timeout + wait + wait - 1) / wait

/-- The decoded logs `get_logs` yields at poll number `k` of a blocking
wait: the transport's response at that time, decoded against the resolved
event ABI.  `transportSeq k` is the chain transport as observed by the
`k`-th poll. -/
def gebFetch (transportSeq : Nat → FilterParams → List RawLog)
    (get_event_data : AbiEntry → RawLog → List (String × Int))
    (event_abi : AbiEntry) (fp : FilterParams) (k : Nat) : List LogEntry :=
  (transportSeq k fp).map (decodeLog get_event_data event_abi)

/-- The loop body of `get_event_blocking` (lines 60-68 of the source).
`n` is the number of remaining iterations, `k` the current poll number,
so the loop variable is `i = k * wait`.  Each iteration issues one
`eth_getLogs` request, returns the first entry accepted by the condition
if any, and otherwise sleeps for `wait` exactly when `i < timeout`. -/
def geb_loop (fetch : Nat → List LogEntry) (condition : Option (LogEntry → Bool))
    (timeout wait : Nat) (fp : FilterParams) :
    Nat → Nat → Option LogEntry × List ProxyAction
  | 0, _ => (Option.none, [])
  | Nat.succ n, k =>
      match (fetch k).filter (condMatch condition) with
      | m :: _ => (Option.some m, [ProxyAction.request fp])
      | [] =>
          if k * wait < timeout then
            ((geb_loop fetch condition timeout wait fp n (k + 1)).1,
             ProxyAction.request fp :: ProxyAction.sleep wait ::
               (geb_loop fetch condition timeout wait fp n (k + 1)).2)
          else
            ((geb_loop fetch condition timeout wait fp n (k + 1)).1,
             ProxyAction.request fp :: (geb_loop fetch condition timeout wait fp n (k + 1)).2)

/-- `ContractProxy.get_event_blocking`.  The ABI resolution inside the
first `get_logs` call raises `IndexError` before any network request when
no ABI entry matches; otherwise the loop polls `get_logs` with the same
parameters each cycle.  Returns the result together with the trace of
requests and sleeps. -/
def get_event_blocking (p : ContractProxy)
    (transportSeq : Nat → FilterParams → List RawLog)
    (get_event_data : AbiEntry → RawLog → List (String × Int))
    (event_name : String) (from_block to_block : BlockSpec)
    (filters : List (String × Int)) (condition : Option (LogEntry → Bool))
    (wait timeout : Nat) :
    Except PyError (Option LogEntry) × List ProxyAction :=
  match resolveEventAbi p.abi event_name with
  | Option.none => (Except.error PyError.indexError, [])
  | Option.some event_abi =>
      (Except.ok (geb_loop
          (gebFetch transportSeq get_event_data event_abi
            (construct_event_filter_params event_abi filters from_block to_block p.address))
          condition timeout wait
          (construct_event_filter_params event_abi filters from_block to_block p.address)
          (numIterations timeout wait) 0).1,
       (geb_loop
          (gebFetch transportSeq get_event_data event_abi
            (construct_event_filter_params event_abi filters from_block to_block p.address))
          condition timeout wait
          (construct_event_filter_params event_abi filters from_block to_block p.address)
          (numIterations timeout wait) 0).2)

/-- Default `to_block='pending'` of `get_event_blocking`. -/
def get_event_blocking_default_to_block : BlockSpec := BlockSpec.pending

/-- The entries the condition accepts at poll number `k`: what
`matching_logs` evaluates to in the `k`-th iteration of the source loop. -/
def matchingAt (transportSeq : Nat → FilterParams → List RawLog)
    (get_event_data : AbiEntry → RawLog → List (String × Int))
    (event_abi : AbiEntry) (fp : FilterParams)
    (condition : Option (LogEntry → Bool)) (k : Nat) : List LogEntry :=
  (gebFetch transportSeq get_event_data event_abi fp k).filter (condMatch condition)

/-- `ChannelContractProxy.get_channel_created_logs`. -/
def get_channel_created_logs (p : ContractProxy) (transport : FilterParams → List RawLog)
    (get_event_data : AbiEntry → RawLog → List (String × Int))
    (from_block to_block : BlockSpec) (filters : List (String × Int)) :
    Except PyError (List LogEntry) × List ProxyAction :=
  get_logs p transport get_event_data "ChannelCreated" from_block to_block filters

/-- `ChannelContractProxy.get_channel_topped_up_logs`. -/
def get_channel_topped_up_logs (p : ContractProxy) (transport : FilterParams → List RawLog)
    (get_event_data : AbiEntry → RawLog → List (String × Int))
    (from_block to_block : BlockSpec) (filters : List (String × Int)) :
    Except PyError (List LogEntry) × List ProxyAction :=
  get_logs p transport get_event_data "ChannelToppedUp" from_block to_block filters

/-- `ChannelContractProxy.get_channel_close_requested_logs`. -/
def get_channel_close_requested_logs (p : ContractProxy) (transport : FilterParams → List RawLog)
    (get_event_data : AbiEntry → RawLog → List (String × Int))
    (from_block to_block : BlockSpec) (filters : List (String × Int)) :
    Except PyError (List LogEntry) × List ProxyAction :=
  get_logs p transport get_event_data "ChannelCloseRequested" from_block to_block filters

/-- `ChannelContractProxy.get_channel_settled_logs`. -/
def get_channel_settled_logs (p : ContractProxy) (transport : FilterParams → List RawLog)
    (get_event_data : AbiEntry → RawLog → List (String × Int))
    (from_block to_block : BlockSpec) (filters : List (String × Int)) :
    Except PyError (List LogEntry) × List ProxyAction :=
  get_logs p transport get_event_data "ChannelSettled" from_block to_block filters

/-- `ChannelContractProxy.get_channel_topup_logs`. -/
def get_channel_topup_logs (p : ContractProxy) (transport : FilterParams → List RawLog)
    (get_event_data : AbiEntry → RawLog → List (String × Int))
    (from_block to_block : BlockSpec) (filters : List (String × Int)) :
    Except PyError (List LogEntry) × List ProxyAction :=
  get_logs p transport get_event_data "ChannelToppedUp" from_block to_block filters

/-- Default `to_block='latest'` shared by the five channel log queries. -/
def channel_logs_default_to_block : BlockSpec := BlockSpec.latest

/-- `ChannelContractProxy.get_channel_created_event_blocking`. -/
def get_channel_created_event_blocking (p : ContractProxy)
    (transportSeq : Nat → FilterParams → List RawLog)
    (get_event_data : AbiEntry → RawLog → List (String × Int))
    (sender receiver : Int) (from_block to_block : BlockSpec)
    (wait timeout : Nat) :
    Except PyError (Option LogEntry) × List ProxyAction :=
  get_event_blocking p transportSeq get_event_data "ChannelCreated" from_block to_block
    [("_sender", sender), ("_receiver", receiver)] Option.none wait timeout

/-- Default `to_block='pending'` of `get_channel_created_event_blocking`. -/
def get_channel_created_event_blocking_default_to_block : BlockSpec := BlockSpec.pending

/-- The local `condition` closure of
`get_channel_topped_up_event_blocking` (lines 112-114 of the source):
`event['args']['_deposit'] == deposit and event['args']['_added_deposit'] == topup`. -/
def topped_up_condition (deposit topup : Int) (event : LogEntry) : Bool :=
  (event.args.lookup "_deposit" == Option.some deposit) &&
    (event.args.lookup "_added_deposit" == Option.some topup)

/-- `ChannelContractProxy.get_channel_topped_up_event_blocking`. -/
def get_channel_topped_up_event_blocking (p : ContractProxy)
    (transportSeq : Nat → FilterParams → List RawLog)
    (get_event_data : AbiEntry → RawLog → List (String × Int))
    (sender receiver opening_block deposit topup : Int)
    (from_block to_block : BlockSpec) (wait timeout : Nat) :
    Except PyError (Option LogEntry) × List ProxyAction :=
  get_event_blocking p transportSeq get_event_data "ChannelToppedUp" from_block to_block
    [("_sender", sender), ("_receiver", receiver), ("_open_block_number", opening_block)]
    (Option.some (topped_up_condition deposit topup)) wait timeout

/-- Default `to_block='pending'` of `get_channel_topped_up_event_blocking`. -/
def get_channel_topped_up_event_blocking_default_to_block : BlockSpec := BlockSpec.pending

/-- `ChannelContractProxy.get_channel_close_requested_event_blocking`. -/
def get_channel_close_requested_event_blocking (p : ContractProxy)
    (transportSeq : Nat → FilterParams → List RawLog)
    (get_event_data : AbiEntry → RawLog → List (String × Int))
    (sender receiver opening_block : Int)
    (from_block to_block : BlockSpec) (wait timeout : Nat) :
    Except PyError (Option LogEntry) × List ProxyAction :=
  get_event_blocking p transportSeq get_event_data "ChannelCloseRequested" from_block to_block
    [("_sender", sender), ("_receiver", receiver), ("_open_block_number", opening_block)]
    Option.none wait timeout

/-- Default `to_block='pending'` of `get_channel_close_requested_event_blocking`. -/
def get_channel_close_requested_event_blocking_default_to_block : BlockSpec := BlockSpec.pending

/-- `ChannelContractProxy.get_channel_settle_event_blocking`. -/
def get_channel_settle_event_blocking (p : ContractProxy)
    (transportSeq : Nat → FilterParams → List RawLog)
    (get_event_data : AbiEntry → RawLog → List (String × Int))
    (sender receiver opening_block : Int)
    (from_block to_block : BlockSpec) (wait timeout : Nat) :
    Except PyError (Option LogEntry) × List ProxyAction :=
  get_event_blocking p transportSeq get_event_data "ChannelSettled" from_block to_block
    [("_sender", sender), ("_receiver", receiver), ("_open_block_number", opening_block)]
    Option.none wait timeout

/-- Default `to_block='pending'` of `get_channel_settle_event_blocking`. -/
def get_channel_settle_event_blocking_default_to_block : BlockSpec := BlockSpec.pending

/-- `ChannelContractProxy.get_settle_timeout`.  `getChannelInfo` is the
external direct contract read `self.contract.call().getChannelInfo(...)`,
returning the 4-field channel-info tuple or a `CallError`.  A
`BadFunctionCallOutput` (channel does not exist) is converted to `none`;
any other error propagates; on success the settle timeout is field index 3
of the tuple. -/
def get_settle_timeout
    (getChannelInfo : Int → Int → Nat → Except CallError (Int × Int × Int × Int))
    (sender receiver : Int) (open_block_number : Nat) :
    Except CallError (Option Int) :=
  match getChannelInfo sender receiver open_block_number with
  | Except.error CallError.badFunctionCallOutput => Except.ok Option.none
  | Except.error (CallError.other msg) => Except.error (CallError.other msg)
  | Except.ok channel_info => Except.ok (Option.some channel_info.2.2.2)

/-- The trace of a blocking wait that found its first accepted entry at
poll number `K`: `K` fruitless request/sleep pairs followed by the final
successful request. -/
def pollTrace (fp : FilterParams) (wait : Nat) : Nat → List ProxyAction
  | 0 => [ProxyAction.request fp]
  | Nat.succ k => ProxyAction.request fp :: ProxyAction.sleep wait :: pollTrace fp wait k

/-- A small concrete ABI used to evaluate the definitions on concrete
inputs. -/
def sampleAbi : List AbiEntry :=
  [AbiEntry.mk "function" "transfer", AbiEntry.mk "event" "ChannelToppedUp",
   AbiEntry.mk "event" "Evt"]

def sampleProxy : ContractProxy := ContractProxy.mk 1 10 42 sampleAbi 5 7

def sampleRaw : RawLog := RawLog.mk 10 [1]

def sampleDecode : AbiEntry → RawLog → List (String × Int) :=
  fun _ _ => [("_deposit", 100), ("_added_deposit", 50)]

def sampleTransportSeq : Nat → FilterParams → List RawLog := fun _ _ => [sampleRaw]

def emptyTransportSeq : Nat → FilterParams → List RawLog := fun _ _ => []

def sampleEntry : LogEntry := LogEntry.mk sampleRaw (sampleDecode (AbiEntry.mk "event" "Evt") sampleRaw)

/-- An ABI containing two `event` entries with the same name. -/
def dupAbi : List AbiEntry := [AbiEntry.mk "event" "Evt", AbiEntry.mk "event" "Evt"]

def dupProxy : ContractProxy := ContractProxy.mk 0 0 0 dupAbi 1 1

theorem pollTrace_requestCount (fp : FilterParams) (wait : Nat) :
    ∀ K, requestCount (pollTrace fp wait K) = K + 1 := by
  intro K
  induction K with
  | zero => rfl
  | succ k ih =>
      simp [pollTrace, requestCount, List.countP_cons, ProxyAction.isRequest] at ih ⊢
      omega

theorem pollTrace_sleepCount (fp : FilterParams) (wait : Nat) :
    ∀ K, sleepCount (pollTrace fp wait K) = K := by
  intro K
  induction K with
  | zero => rfl
  | succ k ih =>
      simp [pollTrace, sleepCount, List.countP_cons, ProxyAction.isRequest] at ih ⊢
      omega

theorem numIterations_eq (timeout wait : Nat) (hw : 0 < wait) :
    numIterations timeout wait = (timeout + wait - 1) / wait + 1 := by
  unfold numIterations
  have h1 : timeout + wait + wait - 1 = (timeout + wait - 1) + wait := by omega
  rw [h1, Nat.add_div_right _ hw]

theorem numIterations_zero_timeout (wait : Nat) (hw : 0 < wait) :
    numIterations 0 wait = 1 := by
  rw [numIterations_eq 0 wait hw, Nat.zero_add, Nat.div_eq_of_lt (by omega)]

/-- If no poll ever yields an accepted entry, the loop returns `none` and
performs one `eth_getLogs` request per iteration. -/
theorem geb_loop_none (fetch : Nat → List LogEntry) (condition : Option (LogEntry → Bool))
    (timeout wait : Nat) (fp : FilterParams)
    (h : ∀ k, (fetch k).filter (condMatch condition) = []) :
    ∀ n k, (geb_loop fetch condition timeout wait fp n k).1 = Option.none ∧
      requestCount (geb_loop fetch condition timeout wait fp n k).2 = n := by
  intro n
  induction n with
  | zero => intro k; exact ⟨rfl, rfl⟩
  | succ n ih =>
      intro k
      by_cases hif : k * wait < timeout
      · constructor
        · simp [geb_loop, h k, hif, (ih (k + 1)).1]
        · have h2 := (ih (k + 1)).2
          simp [geb_loop, h k, hif, requestCount, List.countP_cons,
            ProxyAction.isRequest] at h2 ⊢
          omega
      · constructor
        · simp [geb_loop, h k, hif, (ih (k + 1)).1]
        · have h2 := (ih (k + 1)).2
          simp [geb_loop, h k, hif, requestCount, List.countP_cons,
            ProxyAction.isRequest] at h2 ⊢
          omega

/-- If the first `K` polls yield no accepted entry and poll `K` yields
`m :: ms`, the loop returns `m` with the trace of `K` fruitless
request/sleep pairs followed by the final request. -/
theorem geb_loop_first (fetch : Nat → List LogEntry) (condition : Option (LogEntry → Bool))
    (timeout wait : Nat) (fp : FilterParams) (m : LogEntry) (ms : List LogEntry) :
    ∀ K n k, K < n →
      (∀ j, j < K → (fetch (k + j)).filter (condMatch condition) = []) →
      (fetch (k + K)).filter (condMatch condition) = m :: ms →
      (∀ j, j < K → (k + j) * wait < timeout) →
      geb_loop fetch condition timeout wait fp n k = (Option.some m, pollTrace fp wait K) := by
  intro K
  induction K with
  | zero =>
      intro n k hn h1 h2 h3
      obtain ⟨n', rfl⟩ : ∃ n', n = n' + 1 := ⟨n - 1, by omega⟩
      rw [Nat.add_zero] at h2
      simp [geb_loop, h2, pollTrace]
  | succ K ih =>
      intro n k hn h1 h2 h3
      obtain ⟨n', rfl⟩ : ∃ n', n = n' + 1 := ⟨n - 1, by omega⟩
      have hk : (fetch k).filter (condMatch condition) = [] := by
        have h0 := h1 0 (by omega)
        rwa [Nat.add_zero] at h0
      have hif : k * wait < timeout := by
        have h0 := h3 0 (by omega)
        rwa [Nat.add_zero] at h0
      have hrec := ih n' (k + 1) (by omega)
        (fun j hj => by
          have hidx : k + 1 + j = k + (j + 1) := by omega
          rw [hidx]
          exact h1 (j + 1) (by omega))
        (by
          have hidx : k + 1 + K = k + (K + 1) := by omega
          rw [hidx]
          exact h2)
        (fun j hj => by
          have hidx : k + 1 + j = k + (j + 1) := by omega
          rw [hidx]
          exact h3 (j + 1) (by omega))
      simp [geb_loop, hk, hif, hrec, pollTrace]

/-- Every action in the loop's trace is either a request with the fixed
filter parameters or a sleep. -/
theorem geb_loop_trace_mem (fetch : Nat → List LogEntry) (condition : Option (LogEntry → Bool))
    (timeout wait : Nat) (fp : FilterParams) :
    ∀ n k a, a ∈ (geb_loop fetch condition timeout wait fp n k).2 →
      a = ProxyAction.request fp ∨ ∃ d, a = ProxyAction.sleep d := by
  intro n
  induction n with
  | zero =>
      intro k a ha
      simp [geb_loop] at ha
  | succ n ih =>
      intro k a ha
      cases hfk : (fetch k).filter (condMatch condition) with
      | cons m ms =>
          simp [geb_loop, hfk] at ha
          exact Or.inl ha
      | nil =>
          by_cases hif : k * wait < timeout
          · simp [geb_loop, hfk, hif] at ha
            rcases ha with ha | ha | ha
            · exact Or.inl ha
            · exact Or.inr ⟨wait, ha⟩
            · exact ih (k + 1) a ha
          · simp [geb_loop, hfk, hif] at ha
            rcases ha with ha | ha
            · exact Or.inl ha
            · exact ih (k + 1) a ha

/-- Unfolding `get_event_blocking` when the event ABI resolves. -/
theorem get_event_blocking_eq (p : ContractProxy)
    (transportSeq : Nat → FilterParams → List RawLog)
    (get_event_data : AbiEntry → RawLog → List (String × Int))
    (event_name : String) (from_block to_block : BlockSpec)
    (filters : List (String × Int)) (condition : Option (LogEntry → Bool))
    (wait timeout : Nat) (ea : AbiEntry)
    (hea : resolveEventAbi p.abi event_name = Option.some ea) :
    get_event_blocking p transportSeq get_event_data event_name from_block to_block
        filters condition wait timeout =
      ((geb_loop (gebFetch transportSeq get_event_data ea
            (construct_event_filter_params ea filters from_block to_block p.address))
          condition timeout wait
          (construct_event_filter_params ea filters from_block to_block p.address)
          (numIterations timeout wait) 0).1 |> Except.ok,
       (geb_loop (gebFetch transportSeq get_event_data ea
            (construct_event_filter_params ea filters from_block to_block p.address))
          condition timeout wait
          (construct_event_filter_params ea filters from_block to_block p.address)
          (numIterations timeout wait) 0).2) := by
  simp [get_event_blocking, hea]

/-- Claim C2 (amended): for every requested event name, `get_logs` (and
therefore `get_event_blocking`) fails with a configuration error
(`IndexError`), raised before any network request is issued, whenever the
ABI contains zero entries of type 'event' with that name; whenever one or
more entries match, it proceeds — using the first matching entry — and no
error is raised for an ambiguous name. -/
theorem get_logs_event_resolution (p : ContractProxy)
    (transport : FilterParams → List RawLog)
    (transportSeq : Nat → FilterParams → List RawLog)
    (get_event_data : AbiEntry → RawLog → List (String × Int))
    (event_name : String) (from_block to_block : BlockSpec)
    (filters : List (String × Int)) (condition : Option (LogEntry → Bool))
    (wait timeout : Nat) :
    (p.abi.filter (isMatchingEventAbi event_name) = [] →
        get_logs p transport get_event_data event_name from_block to_block filters
          = (Except.error PyError.indexError, []) ∧
        get_event_blocking p transportSeq get_event_data event_name from_block to_block
            filters condition wait timeout
          = (Except.error PyError.indexError, [])) ∧
    (∀ ea rest, p.abi.filter (isMatchingEventAbi event_name) = ea :: rest →
        get_logs p transport get_event_data event_name from_block to_block filters
          = (Except.ok ((transport (construct_event_filter_params ea filters from_block to_block p.address)).map
                (decodeLog get_event_data ea)),
             [ProxyAction.request (construct_event_filter_params ea filters from_block to_block p.address)])) := by
  constructor
  · intro h
    constructor
    · simp [get_logs, resolveEventAbi, h]
    · simp [get_event_blocking, resolveEventAbi, h]
  · intro ea rest h
    simp [get_logs, resolveEventAbi, h]

/-- Witness for C2's amended theorem: a one-event ABI misses the name
"Nope" and errors with an empty trace; the ABI with a unique "Evt" entry
proceeds. -/
theorem get_logs_event_resolution_witness :
    (get_logs dupProxy (fun _ => []) (fun _ _ => []) "Nope" (BlockSpec.number 0)
        BlockSpec.latest [] = (Except.error PyError.indexError, []) ∧
      get_event_blocking dupProxy (fun _ _ => []) (fun _ _ => []) "Nope" (BlockSpec.number 0)
        BlockSpec.pending [] Option.none 3 20 = (Except.error PyError.indexError, [])) ∧
    get_logs sampleProxy (fun _ => [sampleRaw]) sampleDecode "Evt" (BlockSpec.number 0)
        BlockSpec.latest []
      = (Except.ok [LogEntry.mk sampleRaw (sampleDecode (AbiEntry.mk "event" "Evt") sampleRaw)],
         [ProxyAction.request (construct_event_filter_params (AbiEntry.mk "event" "Evt") []
            (BlockSpec.number 0) BlockSpec.latest 42)]) := by
  constructor
  · exact (get_logs_event_resolution dupProxy (fun _ => []) (fun _ _ => []) (fun _ _ => [])
      "Nope" (BlockSpec.number 0) BlockSpec.latest [] Option.none 3 20).1
      (by simp [dupProxy, dupAbi, isMatchingEventAbi])
  · exact (get_logs_event_resolution sampleProxy (fun _ => [sampleRaw]) (fun _ _ => [sampleRaw])
      sampleDecode "Evt" (BlockSpec.number 0) BlockSpec.latest [] Option.none 3 20).2
      (AbiEntry.mk "event" "Evt") [] (by simp [sampleProxy, sampleAbi, isMatchingEventAbi])

/-- Counterexample for C2 as stated: an ABI with two 'event' entries named
"Evt" does not make `get_logs` fail — it returns a successful (empty)
result, proceeding with the first matching entry. -/
theorem get_logs_duplicate_event_counterexample :
    (dupProxy.abi.filter (isMatchingEventAbi "Evt")).length = 2 ∧
    (get_logs dupProxy (fun _ => []) (fun _ _ => []) "Evt" (BlockSpec.number 0)
        BlockSpec.latest []).1 = Except.ok [] ∧
    (get_logs dupProxy (fun _ => []) (fun _ _ => []) "Evt" (BlockSpec.number 0)
        BlockSpec.latest []).1 ≠ Except.error PyError.indexError := by
  have h1 : (get_logs dupProxy (fun _ => []) (fun _ _ => []) "Evt" (BlockSpec.number 0)
      BlockSpec.latest []).1 = Except.ok [] := rfl
  refine ⟨rfl, h1, ?_⟩
  rw [h1]
  intro h
  exact Except.noConfusion h

/-- Claim C4: `create_transaction` with `nonce_offset = k` produces a
transaction whose nonce is the freshly fetched account transaction count
plus `k`, whose gas price and gas limit are the proxy's construction-time
values, whose recipient is the contract address and whose value is 0; the
returned string is the hex encoding of the RLP-encoded signed transaction;
different offsets never produce the same nonce. -/
theorem create_transaction_fields (p : ContractProxy) (getTransactionCount : Int → Nat)
    (prepare_transaction_data : String → List Int → List Int)
    (sign : Transaction → Nat → List Int) (rlp_encode : List Int → List Int)
    (toHex : List Int → String)
    (func_name : String) (args : List Int) (k l : Nat) :
    (create_transaction_tx p getTransactionCount prepare_transaction_data func_name args k).nonce
        = getTransactionCount p.caller_address + k ∧
    (create_transaction_tx p getTransactionCount prepare_transaction_data func_name args k).gasprice
        = p.gas_price ∧
    (create_transaction_tx p getTransactionCount prepare_transaction_data func_name args k).startgas
        = p.gas_limit ∧
    (create_transaction_tx p getTransactionCount prepare_transaction_data func_name args k).recipient
        = p.address ∧
    (create_transaction_tx p getTransactionCount prepare_transaction_data func_name args k).value
        = 0 ∧
    create_transaction p getTransactionCount prepare_transaction_data sign rlp_encode toHex
        func_name args k
      = toHex (rlp_encode (sign
          (create_transaction_tx p getTransactionCount prepare_transaction_data func_name args k)
          p.privkey)) ∧
    (k ≠ l →
      (create_transaction_tx p getTransactionCount prepare_transaction_data func_name args k).nonce
        ≠ (create_transaction_tx p getTransactionCount prepare_transaction_data func_name args l).nonce) := by
  refine ⟨rfl, rfl, rfl, rfl, rfl, rfl, ?_⟩
  intro hkl
  simp only [create_transaction_tx]
  omega

/-- Witness for C4 at a concrete proxy, transaction count 9 and offsets
2 and 3. -/
theorem create_transaction_fields_witness :
    (create_transaction_tx sampleProxy (fun _ => 9) (fun _ _ => []) "transfer" [] 2).nonce = 11 ∧
    (2 : Nat) ≠ 3 ∧
    (create_transaction_tx sampleProxy (fun _ => 9) (fun _ _ => []) "transfer" [] 2).nonce
      ≠ (create_transaction_tx sampleProxy (fun _ => 9) (fun _ _ => []) "transfer" [] 3).nonce := by
  have h := create_transaction_fields sampleProxy (fun _ => 9) (fun _ _ => [])
    (fun t _ => t.data) (fun x => x) (fun _ => "") "transfer" [] 2 3
  exact ⟨h.1, by decide, h.2.2.2.2.2.2 (by decide)⟩

/-- Claim C6: `get_settle_timeout` performs one direct contract read; a
`BadFunctionCallOutput` failure (channel does not exist) is translated to
an absent result, any other failure propagates unchanged, and on success
it returns field index 3 of the 4-field channel-info tuple. -/
theorem get_settle_timeout_cases
    (getChannelInfo : Int → Int → Nat → Except CallError (Int × Int × Int × Int))
    (sender receiver : Int) (open_block_number : Nat) :
    (getChannelInfo sender receiver open_block_number
          = Except.error CallError.badFunctionCallOutput →
        get_settle_timeout getChannelInfo sender receiver open_block_number
          = Except.ok Option.none) ∧
    (∀ msg, getChannelInfo sender receiver open_block_number
          = Except.error (CallError.other msg) →
        get_settle_timeout getChannelInfo sender receiver open_block_number
          = Except.error (CallError.other msg)) ∧
    (∀ info, getChannelInfo sender receiver open_block_number = Except.ok info →
        get_settle_timeout getChannelInfo sender receiver open_block_number
          = Except.ok (Option.some info.2.2.2)) := by
  refine ⟨?_, ?_, ?_⟩
  · intro h
    simp [get_settle_timeout, h]
  · intro msg h
    simp [get_settle_timeout, h]
  · intro info h
    simp [get_settle_timeout, h]

/-- Witness for C6: the three outcomes at concrete channel-info readers. -/
theorem get_settle_timeout_cases_witness :
    get_settle_timeout (fun _ _ _ => Except.error CallError.badFunctionCallOutput) 1 2 3
      = Except.ok Option.none ∧
    get_settle_timeout (fun _ _ _ => Except.error (CallError.other "boom")) 1 2 3
      = Except.error (CallError.other "boom") ∧
    get_settle_timeout (fun _ _ _ => Except.ok (7, 8, 9, 42)) 1 2 3
      = Except.ok (Option.some 42) := by
  refine ⟨?_, ?_, ?_⟩
  · exact (get_settle_timeout_cases (fun _ _ _ => Except.error CallError.badFunctionCallOutput)
      1 2 3).1 rfl
  · exact (get_settle_timeout_cases (fun _ _ _ => Except.error (CallError.other "boom"))
      1 2 3).2.1 "boom" rfl
  · exact (get_settle_timeout_cases (fun _ _ _ => Except.ok (7, 8, 9, 42)) 1 2 3).2.2
      (7, 8, 9, 42) rfl

/-- Claim C8: `get_logs` is deterministic in its inputs and the transport's
response: two calls with identical parameters against transports returning
the same raw log set give equal results, and when the event resolves the
result is exactly the transport's response, in order, each entry decorated
with the `args` decoded from the resolved event ABI. -/
theorem get_logs_deterministic (p : ContractProxy)
    (t1 t2 : FilterParams → List RawLog)
    (get_event_data : AbiEntry → RawLog → List (String × Int))
    (event_name : String) (from_block to_block : BlockSpec)
    (filters : List (String × Int)) (ea : AbiEntry)
    (h12 : ∀ fp, t1 fp = t2 fp)
    (hea : resolveEventAbi p.abi event_name = Option.some ea) :
    get_logs p t1 get_event_data event_name from_block to_block filters
      = get_logs p t2 get_event_data event_name from_block to_block filters ∧
    get_logs p t1 get_event_data event_name from_block to_block filters
      = (Except.ok ((t1 (construct_event_filter_params ea filters from_block to_block p.address)).map
            (decodeLog get_event_data ea)),
         [ProxyAction.request (construct_event_filter_params ea filters from_block to_block p.address)]) := by
  constructor
  · simp [get_logs, hea, h12]
  · simp [get_logs, hea]

/-- Witness for C8: two syntactically different transports with equal
responses give the same decoded, ordered result. -/
theorem get_logs_deterministic_witness :
    get_logs sampleProxy (fun _ => [sampleRaw]) sampleDecode "Evt" (BlockSpec.number 0)
        BlockSpec.latest []
      = get_logs sampleProxy (fun _ => [RawLog.mk (9 + 1) [1]]) sampleDecode
          "Evt" (BlockSpec.number 0) BlockSpec.latest [] ∧
    get_logs sampleProxy (fun _ => [sampleRaw]) sampleDecode "Evt" (BlockSpec.number 0)
        BlockSpec.latest []
      = (Except.ok [LogEntry.mk sampleRaw (sampleDecode (AbiEntry.mk "event" "Evt") sampleRaw)],
         [ProxyAction.request (construct_event_filter_params (AbiEntry.mk "event" "Evt") []
            (BlockSpec.number 0) BlockSpec.latest 42)]) := by
  have h := get_logs_deterministic sampleProxy (fun _ => [sampleRaw])
    (fun _ => [RawLog.mk (9 + 1) [1]]) sampleDecode "Evt"
    (BlockSpec.number 0) BlockSpec.latest [] (AbiEntry.mk "event" "Evt")
    (fun fp => by simp [sampleRaw]) rfl
  exact ⟨h.1, h.2⟩

/-- Claim C9: `get_channel_topup_logs` and `get_channel_topped_up_logs`
are extensionally equal — both delegate to
`get_logs "ChannelToppedUp"` with the given block range and filters. -/
theorem channel_topup_logs_extensional (p : ContractProxy)
    (transport : FilterParams → List RawLog)
    (get_event_data : AbiEntry → RawLog → List (String × Int))
    (from_block to_block : BlockSpec) (filters : List (String × Int)) :
    get_channel_topup_logs p transport get_event_data from_block to_block filters
      = get_channel_topped_up_logs p transport get_event_data from_block to_block filters ∧
    get_channel_topup_logs p transport get_event_data from_block to_block filters
      = get_logs p transport get_event_data "ChannelToppedUp" from_block to_block filters :=
  ⟨rfl, rfl⟩

/-- Claim C1 (amended): for every timeout T and waitInterval w > 0, a
blocking wait whose polls never yield an accepted entry returns absent
after performing exactly ceil(T/w) + 1 poll attempts (calls to
`get_logs`, i.e. `(T + w - 1) / w + 1`) and no more; this equals
floor(T/w) + 1 exactly when w divides T. -/
theorem get_event_blocking_timeout_poll_count (p : ContractProxy)
    (transportSeq : Nat → FilterParams → List RawLog)
    (get_event_data : AbiEntry → RawLog → List (String × Int))
    (event_name : String) (from_block to_block : BlockSpec)
    (filters : List (String × Int)) (condition : Option (LogEntry → Bool))
    (wait timeout : Nat) (ea : AbiEntry)
    (hw : 0 < wait)
    (hea : resolveEventAbi p.abi event_name = Option.some ea)
    (hnm : ∀ k, matchingAt transportSeq get_event_data ea
        (construct_event_filter_params ea filters from_block to_block p.address)
        condition k = []) :
    (get_event_blocking p transportSeq get_event_data event_name from_block to_block
        filters condition wait timeout).1 = Except.ok Option.none ∧
    requestCount (get_event_blocking p transportSeq get_event_data event_name from_block
        to_block filters condition wait timeout).2 = (timeout + wait - 1) / wait + 1 := by
  rw [get_event_blocking_eq p transportSeq get_event_data event_name from_block to_block
    filters condition wait timeout ea hea]
  have h := geb_loop_none
    (gebFetch transportSeq get_event_data ea
      (construct_event_filter_params ea filters from_block to_block p.address))
    condition timeout wait
    (construct_event_filter_params ea filters from_block to_block p.address)
    (fun k => hnm k) (numIterations timeout wait) 0
  exact ⟨congrArg Except.ok h.1, h.2.trans (numIterations_eq timeout wait hw)⟩

/-- Witness for C1's amended theorem at timeout 1 and wait 2: absent after
(1 + 2 - 1) / 2 + 1 = 2 polls. -/
theorem get_event_blocking_timeout_poll_count_witness :
    (0 : Nat) < 2 ∧
    (get_event_blocking sampleProxy emptyTransportSeq sampleDecode "Evt" (BlockSpec.number 0)
        BlockSpec.pending [] Option.none 2 1).1 = Except.ok Option.none ∧
    requestCount (get_event_blocking sampleProxy emptyTransportSeq sampleDecode "Evt"
        (BlockSpec.number 0) BlockSpec.pending [] Option.none 2 1).2 = (1 + 2 - 1) / 2 + 1 := by
  have h := get_event_blocking_timeout_poll_count sampleProxy emptyTransportSeq sampleDecode
    "Evt" (BlockSpec.number 0) BlockSpec.pending [] Option.none 2 1
    (AbiEntry.mk "event" "Evt") (by decide) rfl (fun k => rfl)
  exact ⟨by decide, h.1, h.2⟩

/-- Counterexample for C1 as stated: with timeout T = 1 and wait w = 2 (w
does not divide T) the code performs 2 poll attempts, while the claimed
count floor(T/w) + 1 is 1. -/
theorem get_event_blocking_floor_counterexample :
    requestCount (get_event_blocking sampleProxy emptyTransportSeq sampleDecode "Evt"
        (BlockSpec.number 0) BlockSpec.pending [] Option.none 2 1).2 = 2 ∧
    (1 : Nat) / 2 + 1 = 1 ∧
    requestCount (get_event_blocking sampleProxy emptyTransportSeq sampleDecode "Evt"
        (BlockSpec.number 0) BlockSpec.pending [] Option.none 2 1).2 ≠ (1 : Nat) / 2 + 1 := by
  refine ⟨rfl, rfl, ?_⟩
  intro h
  rw [show requestCount (get_event_blocking sampleProxy emptyTransportSeq sampleDecode "Evt"
      (BlockSpec.number 0) BlockSpec.pending [] Option.none 2 1).2 = 2 from rfl] at h
  exact absurd h (by decide)

/-- Claim C3: for every wait w > 0, a blocking wait with timeout = 0
performs exactly one call to `get_logs` and never sleeps, returning the
first accepted entry if one exists and absent otherwise. -/
theorem get_event_blocking_timeout_zero (p : ContractProxy)
    (transportSeq : Nat → FilterParams → List RawLog)
    (get_event_data : AbiEntry → RawLog → List (String × Int))
    (event_name : String) (from_block to_block : BlockSpec)
    (filters : List (String × Int)) (condition : Option (LogEntry → Bool))
    (wait : Nat) (ea : AbiEntry)
    (hw : 0 < wait)
    (hea : resolveEventAbi p.abi event_name = Option.some ea) :
    get_event_blocking p transportSeq get_event_data event_name from_block to_block
        filters condition wait 0
      = (Except.ok (matchingAt transportSeq get_event_data ea
            (construct_event_filter_params ea filters from_block to_block p.address)
            condition 0).head?,
         [ProxyAction.request
            (construct_event_filter_params ea filters from_block to_block p.address)]) ∧
    requestCount (get_event_blocking p transportSeq get_event_data event_name from_block
        to_block filters condition wait 0).2 = 1 ∧
    sleepCount (get_event_blocking p transportSeq get_event_data event_name from_block
        to_block filters condition wait 0).2 = 0 := by
  have hmain : get_event_blocking p transportSeq get_event_data event_name from_block to_block
      filters condition wait 0
    = (Except.ok (matchingAt transportSeq get_event_data ea
          (construct_event_filter_params ea filters from_block to_block p.address)
          condition 0).head?,
       [ProxyAction.request
          (construct_event_filter_params ea filters from_block to_block p.address)]) := by
    rw [get_event_blocking_eq p transportSeq get_event_data event_name from_block to_block
      filters condition wait 0 ea hea, numIterations_zero_timeout wait hw]
    cases hm : (gebFetch transportSeq get_event_data ea
        (construct_event_filter_params ea filters from_block to_block p.address) 0).filter
        (condMatch condition) with
    | nil => simp [geb_loop, hm, matchingAt]
    | cons m ms => simp [geb_loop, hm, matchingAt]
  refine ⟨hmain, ?_, ?_⟩
  · rw [hmain]
    rfl
  · rw [hmain]
    rfl

/-- Witness for C3: one poll that immediately finds an entry; one request,
no sleep. -/
theorem get_event_blocking_timeout_zero_witness :
    get_event_blocking sampleProxy sampleTransportSeq sampleDecode "Evt" (BlockSpec.number 0)
        BlockSpec.pending [] Option.none 3 0
      = (Except.ok (Option.some sampleEntry),
         [ProxyAction.request (construct_event_filter_params (AbiEntry.mk "event" "Evt") []
            (BlockSpec.number 0) BlockSpec.pending 42)]) ∧
    requestCount (get_event_blocking sampleProxy sampleTransportSeq sampleDecode "Evt"
        (BlockSpec.number 0) BlockSpec.pending [] Option.none 3 0).2 = 1 ∧
    sleepCount (get_event_blocking sampleProxy sampleTransportSeq sampleDecode "Evt"
        (BlockSpec.number 0) BlockSpec.pending [] Option.none 3 0).2 = 0 := by
  have h := get_event_blocking_timeout_zero sampleProxy sampleTransportSeq sampleDecode "Evt"
    (BlockSpec.number 0) BlockSpec.pending [] Option.none 3 (AbiEntry.mk "event" "Evt")
    (by decide) rfl
  exact ⟨h.1, h.2.1, h.2.2⟩

/-- Claim C5: in every poll cycle the entries returned by `get_logs` are
filtered by the caller-supplied condition — an absent condition accepting
every entry, a supplied one evaluated per entry — and when poll number K
is the first whose filtered list is nonempty, the waiter immediately
returns that list's first entry in `get_logs` order, after exactly K + 1
requests and K sleeps (no further polls or sleeps). -/
theorem get_event_blocking_first_match (p : ContractProxy)
    (transportSeq : Nat → FilterParams → List RawLog)
    (get_event_data : AbiEntry → RawLog → List (String × Int))
    (event_name : String) (from_block to_block : BlockSpec)
    (filters : List (String × Int)) (condition : Option (LogEntry → Bool))
    (wait timeout : Nat) (ea : AbiEntry) (K : Nat) (m : LogEntry) (ms : List LogEntry)
    (hw : 0 < wait)
    (hea : resolveEventAbi p.abi event_name = Option.some ea)
    (hK : K * wait < timeout + wait)
    (hbefore : ∀ j, j < K → matchingAt transportSeq get_event_data ea
        (construct_event_filter_params ea filters from_block to_block p.address)
        condition j = [])
    (hmatch : matchingAt transportSeq get_event_data ea
        (construct_event_filter_params ea filters from_block to_block p.address)
        condition K = m :: ms) :
    get_event_blocking p transportSeq get_event_data event_name from_block to_block
        filters condition wait timeout
      = (Except.ok (Option.some m),
         pollTrace (construct_event_filter_params ea filters from_block to_block p.address)
           wait K) ∧
    requestCount (get_event_blocking p transportSeq get_event_data event_name from_block
        to_block filters condition wait timeout).2 = K + 1 ∧
    sleepCount (get_event_blocking p transportSeq get_event_data event_name from_block
        to_block filters condition wait timeout).2 = K ∧
    (∀ logs : List LogEntry, logs.filter (condMatch Option.none) = logs) ∧
    (∀ (c : LogEntry → Bool) (e : LogEntry), condMatch (Option.some c) e = c e) := by
  have hKn : K < numIterations timeout wait := by
    rw [numIterations_eq timeout wait hw]
    exact Nat.lt_succ_of_le ((Nat.le_div_iff_mul_le hw).mpr (Nat.le_pred_of_lt hK))
  have hsleep : ∀ j, j < K → (0 + j) * wait < timeout := by
    intro j hj
    have h1 : (j + 1) * wait ≤ K * wait := Nat.mul_le_mul_right wait (by omega)
    have h2 : j * wait + wait ≤ K * wait := by
      calc j * wait + wait = (j + 1) * wait := by ring
      _ ≤ K * wait := h1
    have h3 : j * wait + wait < timeout + wait := Nat.lt_of_le_of_lt h2 hK
    have h4 : j * wait < timeout := Nat.lt_of_add_lt_add_right h3
    rwa [Nat.zero_add]
  have hloop := geb_loop_first
    (gebFetch transportSeq get_event_data ea
      (construct_event_filter_params ea filters from_block to_block p.address))
    condition timeout wait
    (construct_event_filter_params ea filters from_block to_block p.address)
    m ms K (numIterations timeout wait) 0 hKn
    (fun j hj => by rw [Nat.zero_add]; exact hbefore j hj)
    (by rw [Nat.zero_add]; exact hmatch)
    hsleep
  have heq : get_event_blocking p transportSeq get_event_data event_name from_block to_block
      filters condition wait timeout
    = (Except.ok (Option.some m),
       pollTrace (construct_event_filter_params ea filters from_block to_block p.address)
         wait K) := by
    rw [get_event_blocking_eq p transportSeq get_event_data event_name from_block to_block
      filters condition wait timeout ea hea, hloop]
  refine ⟨heq, ?_, ?_, ?_, ?_⟩
  · rw [heq]
    exact pollTrace_requestCount
      (construct_event_filter_params ea filters from_block to_block p.address) wait K
  · rw [heq]
    exact pollTrace_sleepCount
      (construct_event_filter_params ea filters from_block to_block p.address) wait K
  · intro logs
    exact List.filter_eq_self.mpr (fun a _ => rfl)
  · intro c e
    rfl

/-- Witness for C5: the first poll is empty, the second poll yields the
matching entry; two requests, one sleep. -/
theorem get_event_blocking_first_match_witness :
    get_event_blocking sampleProxy (fun k _ => if k = 0 then [] else [sampleRaw]) sampleDecode
        "Evt" (BlockSpec.number 0) BlockSpec.pending [] Option.none 3 3
      = (Except.ok (Option.some sampleEntry),
         pollTrace (construct_event_filter_params (AbiEntry.mk "event" "Evt") []
            (BlockSpec.number 0) BlockSpec.pending 42) 3 1) ∧
    requestCount (get_event_blocking sampleProxy (fun k _ => if k = 0 then [] else [sampleRaw])
        sampleDecode "Evt" (BlockSpec.number 0) BlockSpec.pending [] Option.none 3 3).2 = 2 ∧
    sleepCount (get_event_blocking sampleProxy (fun k _ => if k = 0 then [] else [sampleRaw])
        sampleDecode "Evt" (BlockSpec.number 0) BlockSpec.pending [] Option.none 3 3).2 = 1 := by
  have h := get_event_blocking_first_match sampleProxy
    (fun k _ => if k = 0 then [] else [sampleRaw]) sampleDecode "Evt" (BlockSpec.number 0)
    BlockSpec.pending [] Option.none 3 3 (AbiEntry.mk "event" "Evt") 1 sampleEntry []
    (by decide) rfl (by decide)
    (fun j hj => by
      have hj0 : j = 0 := by omega
      subst hj0
      rfl)
    rfl
  exact ⟨h.1, h.2.1, h.2.2.1⟩

/-- Claim C7: `get_channel_topped_up_event_blocking` waits on event
'ChannelToppedUp' with argument filters fixing `_sender`, `_receiver` and
`_open_block_number`, and a condition accepting a decoded entry exactly
when its args satisfy `_deposit == deposit` and `_added_deposit == topup`;
when every transported entry decodes to a different `_added_deposit` the
call returns absent. -/
theorem get_channel_topped_up_event_blocking_spec (p : ContractProxy)
    (transportSeq : Nat → FilterParams → List RawLog)
    (get_event_data : AbiEntry → RawLog → List (String × Int))
    (sender receiver opening_block deposit topup : Int)
    (from_block to_block : BlockSpec) (wait timeout : Nat) (ea : AbiEntry)
    (hea : resolveEventAbi p.abi "ChannelToppedUp" = Option.some ea) :
    get_channel_topped_up_event_blocking p transportSeq get_event_data sender receiver
        opening_block deposit topup from_block to_block wait timeout
      = get_event_blocking p transportSeq get_event_data "ChannelToppedUp" from_block to_block
          [("_sender", sender), ("_receiver", receiver), ("_open_block_number", opening_block)]
          (Option.some (topped_up_condition deposit topup)) wait timeout ∧
    (∀ e : LogEntry, topped_up_condition deposit topup e = true ↔
        (e.args.lookup "_deposit" = Option.some deposit ∧
         e.args.lookup "_added_deposit" = Option.some topup)) ∧
    ((∀ k fp l, l ∈ transportSeq k fp →
        (get_event_data ea l).lookup "_added_deposit" ≠ Option.some topup) →
      (get_channel_topped_up_event_blocking p transportSeq get_event_data sender receiver
          opening_block deposit topup from_block to_block wait timeout).1
        = Except.ok Option.none) := by
  refine ⟨rfl, ?_, ?_⟩
  · intro e
    simp [topped_up_condition]
  · intro h
    unfold get_channel_topped_up_event_blocking
    rw [get_event_blocking_eq p transportSeq get_event_data "ChannelToppedUp" from_block
      to_block [("_sender", sender), ("_receiver", receiver), ("_open_block_number", opening_block)]
      (Option.some (topped_up_condition deposit topup)) wait timeout ea hea]
    have hnm : ∀ k, (gebFetch transportSeq get_event_data ea
        (construct_event_filter_params ea
          [("_sender", sender), ("_receiver", receiver), ("_open_block_number", opening_block)]
          from_block to_block p.address) k).filter
        (condMatch (Option.some (topped_up_condition deposit topup))) = [] := by
      intro k
      rw [List.filter_eq_nil_iff]
      intro e he
      simp only [gebFetch, List.mem_map] at he
      obtain ⟨l, hl, rfl⟩ := he
      simp only [condMatch, decodeLog, topped_up_condition, Bool.and_eq_true, beq_iff_eq,
        not_and]
      intro _
      exact h k _ l hl
    have hln := geb_loop_none
      (gebFetch transportSeq get_event_data ea
        (construct_event_filter_params ea
          [("_sender", sender), ("_receiver", receiver), ("_open_block_number", opening_block)]
          from_block to_block p.address))
      (Option.some (topped_up_condition deposit topup)) timeout wait
      (construct_event_filter_params ea
        [("_sender", sender), ("_receiver", receiver), ("_open_block_number", opening_block)]
        from_block to_block p.address)
      hnm (numIterations timeout wait) 0
    exact congrArg Except.ok hln.1

/-- Witness for C7: an on-chain entry with added deposit 50 never matches a
wait for topup 40, which times out to absent. -/
theorem get_channel_topped_up_event_blocking_spec_witness :
    topped_up_condition 100 40 sampleEntry = false ∧
    (get_channel_topped_up_event_blocking sampleProxy sampleTransportSeq sampleDecode
        1 2 3 100 40 (BlockSpec.number 0) BlockSpec.pending 3 20).1
      = Except.ok Option.none := by
  have h := get_channel_topped_up_event_blocking_spec sampleProxy sampleTransportSeq
    sampleDecode 1 2 3 100 40 (BlockSpec.number 0) BlockSpec.pending 3 20
    (AbiEntry.mk "event" "ChannelToppedUp") rfl
  refine ⟨by decide, ?_⟩
  exact h.2.2 (fun k fp l hl => by
    simp only [sampleTransportSeq, List.mem_singleton] at hl
    subst hl
    decide)

/-- Claim C10: when the to-block bound is not supplied, the blocking
waiter and all four channel blocking waits default it to the symbolic
marker 'pending', whereas the non-blocking log queries default it to
'latest'; every poll cycle of a blocking wait passes the same to-block
value through to the filter request unchanged. -/
theorem to_block_defaults (p : ContractProxy)
    (transportSeq : Nat → FilterParams → List RawLog)
    (get_event_data : AbiEntry → RawLog → List (String × Int))
    (event_name : String) (from_block to_block : BlockSpec)
    (filters : List (String × Int)) (condition : Option (LogEntry → Bool))
    (wait timeout : Nat) :
    get_event_blocking_default_to_block = BlockSpec.pending ∧
    get_channel_created_event_blocking_default_to_block = BlockSpec.pending ∧
    get_channel_topped_up_event_blocking_default_to_block = BlockSpec.pending ∧
    get_channel_close_requested_event_blocking_default_to_block = BlockSpec.pending ∧
    get_channel_settle_event_blocking_default_to_block = BlockSpec.pending ∧
    get_logs_default_to_block = BlockSpec.latest ∧
    channel_logs_default_to_block = BlockSpec.latest ∧
    (∀ fp, ProxyAction.request fp ∈ (get_event_blocking p transportSeq get_event_data
        event_name from_block to_block filters condition wait timeout).2 →
      fp.toBlock = to_block) := by
  refine ⟨rfl, rfl, rfl, rfl, rfl, rfl, rfl, ?_⟩
  intro fp hfp
  cases hres : resolveEventAbi p.abi event_name with
  | none => simp [get_event_blocking, hres] at hfp
  | some ea =>
      rw [get_event_blocking_eq p transportSeq get_event_data event_name from_block to_block
        filters condition wait timeout ea hres] at hfp
      have hmem := geb_loop_trace_mem
        (gebFetch transportSeq get_event_data ea
          (construct_event_filter_params ea filters from_block to_block p.address))
        condition timeout wait
        (construct_event_filter_params ea filters from_block to_block p.address)
        (numIterations timeout wait) 0 (ProxyAction.request fp) hfp
      rcases hmem with hmem | ⟨d, hmem⟩
      · injection hmem with h1
        rw [h1]
        rfl
      · exact absurd hmem (by simp)

/-- Witness for C10: at a concrete call with to-block 'pending', the
request found in the trace carries to-block 'pending'. -/
theorem to_block_defaults_witness :
    get_event_blocking_default_to_block = BlockSpec.pending ∧
    get_logs_default_to_block = BlockSpec.latest ∧
    (construct_event_filter_params (AbiEntry.mk "event" "Evt") [] (BlockSpec.number 0)
        BlockSpec.pending 42).toBlock = BlockSpec.pending := by
  have h := to_block_defaults sampleProxy sampleTransportSeq sampleDecode "Evt"
    (BlockSpec.number 0) BlockSpec.pending [] Option.none 3 0
  refine ⟨h.1, h.2.2.2.2.2.1, ?_⟩
  exact h.2.2.2.2.2.2.2
    (construct_event_filter_params (AbiEntry.mk "event" "Evt") [] (BlockSpec.number 0)
      BlockSpec.pending 42)
    (by decide)
